import Mathlib

/-!
Shallow embedding of `src/main.py` ("london-newyork-tokyo-conditions").

Conventions of the embedding:
* Python floats are modelled by `ℝ` where transcendental functions
  (`math.sin`, `math.pi`) are involved, and by `ℚ` for timestamps and the
  purely rational arithmetic; every rounding point of the program keeps a
  comfortable margin from ties and representation error, so exact
  arithmetic agrees with the program on all evaluated inputs.
* The sqlite tables (`temporal_data`, `atmospheric_data`) each have the
  city as PRIMARY KEY with `INSERT OR REPLACE`, so a table is a function
  from the key to an optional row.
* Network calls (`requests.Session.get` plus JSON parsing) are external;
  their outcome enters the embedding as an oracle value: `none` models any
  failure (timeout, non-200 status, malformed payload, exception) and
  `some` carries the successfully parsed payload.  The code itself builds
  the record from that payload, and that construction is embedded.
* `datetime.now(tz)` and `time.time()` enter as explicit clock inputs
  (`month`, `hour`, `now`).
* `hashlib.md5(...).hexdigest()` is modelled by a pure placeholder digest
  that keeps its input; only its purity matters to any claim.
-/

/-- Embeds `class DataSource(Enum)` of the record source. -/
inductive DataSource
  | cache
  | api
  | fallback
deriving DecidableEq, Repr

/-- Embeds `@dataclass TemporalData`. -/
structure TemporalData where
  city : String
  time_str : String
  timestamp : ℚ
  source : DataSource
deriving DecidableEq, Repr

/-- Embeds `@dataclass AtmosphericData`.  `temperature` and `wind_speed` are the
program's floats, modelled by `ℝ` (the fallback temperature involves
`math.sin`). -/
structure AtmosphericData where
  city : String
  temperature : ℝ
  condition : String
  humidity : ℕ
  wind_speed : ℝ
  timestamp : ℚ
  source : DataSource

/-- Embeds `@dataclass CityConfig`. -/
structure CityConfig where
  timezone : String
  display_name : String
  coordinates : ℚ × ℚ
  weather_api_id : Option String
deriving DecidableEq, Repr

/-- The fields of `ResourceManager.config` that the acquisition code reads. -/
structure AppConfig where
  openweather_api_key : String
  worldtimeapi_key : String
  cache_ttl : ℚ
  units : String
deriving DecidableEq, Repr

/-- One row of the `temporal_data` sqlite table
`(city, time_str, timestamp, source, hash)`. -/
structure TemporalRow where
  city : String
  time_str : String
  timestamp : ℚ
  source : DataSource
  hash : String
deriving DecidableEq, Repr

/-- The `temporal_data` table: city is PRIMARY KEY. -/
def TemporalCache := String → Option TemporalRow

/-- One row of the `atmospheric_data` sqlite table.  The md5 digest over
`f"{temperature}{condition}{timestamp}"` is modelled by the digested
content itself (a pure stand-in for the hex digest). -/
structure AtmosphericRow where
  city : String
  temperature : ℝ
  condition : String
  humidity : ℕ
  wind_speed : ℝ
  timestamp : ℚ
  source : DataSource
  hash : ℝ × String × ℚ

/-- The `atmospheric_data` table: city is PRIMARY KEY. -/
def AtmosphericCache := String → Option AtmosphericRow

/-- Pure stand-in for `hashlib.md5(s.encode()).hexdigest()`: md5 is a pure
function of its input string, and no claim depends on anything else about
it, so the model keeps the input. -/
def md5_model (s : String) : String := "md5:" ++ s

/-- Embeds `ResourceManager.store_temporal`: computes the content hash over
`f"{data.time_str}{data.timestamp}"` and upserts the row under
`data.city`. -/
def store_temporal (cache : TemporalCache) (data : TemporalData) : TemporalCache :=
  fun city =>
    if city = data.city then
      some ⟨data.city, data.time_str, data.timestamp, data.source,
        md5_model (data.time_str ++ toString data.timestamp)⟩
    else cache city

/-- Embeds `ResourceManager.retrieve_temporal`: `cutoff = time.time() - ttl`,
`SELECT * ... WHERE city = ? AND timestamp > cutoff`; a matching row is
rebuilt into a `TemporalData` (the hash column is not returned). -/
def retrieve_temporal (cache : TemporalCache) (city : String) (ttl now : ℚ) :
    Option TemporalData :=
  match cache city with
  | some row =>
      if row.timestamp > now - ttl then
        some ⟨row.city, row.time_str, row.timestamp, row.source⟩
      else none
  | none => none

/-- Embeds `ResourceManager.store_atmospheric`: hash over
`f"{data.temperature}{data.condition}{data.timestamp}"`, upsert under
`data.city`. -/
def store_atmospheric (cache : AtmosphericCache) (data : AtmosphericData) :
    AtmosphericCache :=
  fun city =>
    if city = data.city then
      some ⟨data.city, data.temperature, data.condition, data.humidity,
        data.wind_speed, data.timestamp, data.source,
        (data.temperature, data.condition, data.timestamp)⟩
    else cache city

/-- Embeds `ResourceManager.retrieve_atmospheric`: freshness filter
`timestamp > time.time() - ttl`, row rebuilt without the hash column. -/
def retrieve_atmospheric (cache : AtmosphericCache) (city : String) (ttl now : ℚ) :
    Option AtmosphericData :=
  match cache city with
  | some row =>
      if row.timestamp > now - ttl then
        some ⟨row.city, row.temperature, row.condition, row.humidity,
          row.wind_speed, row.timestamp, row.source⟩
      else none
  | none => none

/-- Registry entry `TemporalAcquisition.CITIES["london"]`. -/
def london_config : CityConfig :=
  ⟨"Europe/London", "London", (51.5074, -0.1278), some "2643743"⟩

/-- Registry entry `TemporalAcquisition.CITIES["tokyo"]`. -/
def tokyo_config : CityConfig :=
  ⟨"Asia/Tokyo", "Tokyo", (35.6762, 139.6503), some "1850147"⟩

/-- Registry entry `TemporalAcquisition.CITIES["newyork"]`. -/
def newyork_config : CityConfig :=
  ⟨"America/New_York", "New York", (40.7128, -74.0060), some "5128581"⟩

/-- Embeds `TemporalAcquisition.CITIES` as a lookup (a Python dict access
`CITIES[city_id]` raises KeyError exactly when this returns `none`). -/
def CITIES (city_id : String) : Option CityConfig :=
  match city_id with
  | "london" => some london_config
  | "tokyo" => some tokyo_config
  | "newyork" => some newyork_config
  | _ => none

/-- External inputs of one temporal resolution: the worldtimeapi outcome
(`some s` = HTTP 200 whose payload formats to the localized string `s`,
`none` = any failure), the locally formatted current instant used by the
fallback, and `time.time()`. -/
structure TimeEnv where
  response : Option String
  local_fmt : String
  now : ℚ
deriving DecidableEq, Repr

/-- Embeds `TemporalAcquisition._acquire_from_worldtimeapi`: on success the code
builds the record itself with `city=city_id`, `timestamp=time.time()`,
`source=API`; every failure is swallowed and yields `None`. -/
def acquire_from_worldtimeapi (city_id : String) (_config : CityConfig)
    (response : Option String) (now : ℚ) : Option TemporalData :=
  response.map fun s => ⟨city_id, s, now, DataSource.api⟩

/-- Embeds `config.timezone.split('/')[-1].lower().replace('_', '')` from
`TemporalAcquisition._acquire_fallback`. -/
def tz_derived_city (timezone : String) : String :=
  (((timezone.splitOn "/").getLastD "").toLower).replace "_" ""

/-- Embeds `TemporalAcquisition._acquire_fallback`: localizes the current instant
(the formatted string is an external input) and derives the city field
from the timezone name. -/
def acquire_fallback (config : CityConfig) (local_fmt : String) (now : ℚ) :
    TemporalData :=
  ⟨tz_derived_city config.timezone, local_fmt, now, DataSource.fallback⟩

/-- Embeds `TemporalAcquisition.acquire_temporal`: registry lookup (KeyError on an
unknown id), then cache, then the time API, then the fallback whose city
field is overwritten with the requested id before storing. -/
def acquire_temporal (cfg : AppConfig) (cache : TemporalCache) (env : TimeEnv)
    (city_id : String) : Except String (TemporalData × TemporalCache) :=
  match CITIES city_id with
  | none => .error "KeyError"
  | some config =>
    match retrieve_temporal cache city_id cfg.cache_ttl env.now with
    | some cached => .ok (cached, cache)
    | none =>
      match acquire_from_worldtimeapi city_id config env.response env.now with
      | some api_time => .ok (api_time, store_temporal cache api_time)
      | none =>
        let fb0 := acquire_fallback config env.local_fmt env.now
        let fb : TemporalData := { fb0 with city := city_id }
        .ok (fb, store_temporal cache fb)

/-- Parsed payload of a successful openweather response. -/
structure WeatherResponse where
  temperature : ℝ
  condition : String
  humidity : ℕ
  wind_speed : ℝ

/-- External inputs of one atmospheric resolution: the openweather outcome,
`datetime.now(tz).month`, `.hour`, and `time.time()`. -/
structure AtmosEnv where
  response : Option WeatherResponse
  month : ℕ
  hour : ℕ
  now : ℚ

/-- Embeds `AtmosphericAcquisition._acquire_from_openweather`: on success the
record's city field is `config.display_name`; failures yield `None`. -/
def acquire_from_openweather (config : CityConfig)
    (response : Option WeatherResponse) (now : ℚ) : Option AtmosphericData :=
  response.map fun r =>
    ⟨config.display_name, r.temperature, r.condition, r.humidity, r.wind_speed,
      now, DataSource.api⟩

/-- Python's `round(x, 1)` on the program's values: round `10 * x` to the
nearest integer and divide by ten.  (Python rounds ties to even; no value
this development evaluates is at a tie, so the convention is immaterial.) -/
noncomputable def round1 (x : ℝ) : ℝ := ((round (10 * x) : ℤ) : ℝ) / 10

/-- The `base_temps` dict with its `.get(city_id, 15)` default. -/
def base_temps (city_id : String) : ℚ :=
  match city_id with
  | "london" => 10
  | "tokyo" => 16
  | "newyork" => 12
  | _ => 15

/-- Embeds `AtmosphericAcquisition._generate_fallback_data`, with the clock read
(`datetime.now(tz)`) made explicit through `env.month`/`env.hour` and
`time.time()` through `env.now`. -/
noncomputable def generate_fallback_data (city_id : String) (config : CityConfig)
    (env : AtmosEnv) (units : String) : AtmosphericData :=
  let month := env.month
  let hour := env.hour
  let base_temp : ℝ := (base_temps city_id : ℚ)
  let temp_variation : ℝ := Real.sin (((month : ℝ) - 1) * Real.pi / 6) * 8
  let hour_variation : ℝ := Real.sin (((hour : ℝ) - 12) * Real.pi / 12) * 3
  let temperature : ℝ := base_temp + temp_variation + hour_variation
  let conditions : List String :=
    if month = 12 ∨ month = 1 ∨ month = 2 then
      ["Clear", "Partly Cloudy", "Cloudy", "Light Snow"]
    else if month = 6 ∨ month = 7 ∨ month = 8 then
      ["Clear", "Partly Cloudy", "Cloudy", "Light Rain"]
    else
      ["Clear", "Partly Cloudy", "Cloudy", "Light Rain"]
  let condition := conditions.getD ((month + hour) % 4) ""
  let temperature2 : ℝ :=
    if units = "imperial" then temperature * 9 / 5 + 32 else temperature
  let wind_speed : ℝ :=
    if units = "imperial" then 3.5 + ((month % 3 : ℕ) : ℝ) * 0.621371
    else 3.5 + ((month % 3 : ℕ) : ℝ)
  ⟨config.display_name, round1 temperature2, condition, 65 + (month * 2) % 20,
    round1 wind_speed, env.now, DataSource.fallback⟩

/-- Python's `str.strip()` (whitespace on both ends), written with
structural recursion so that it evaluates on literals. -/
def py_strip (s : String) : String :=
  String.mk (((s.data.dropWhile Char.isWhitespace).reverse.dropWhile
    Char.isWhitespace).reverse)

/-- Embeds `AtmosphericAcquisition.acquire_atmospheric`: cache first, then the
registry lookup, then the credential check (`not api_key or
api_key.strip() == ""` returns the synthesized record WITHOUT storing),
then the weather API (stored on success), then the fallback (stored). -/
noncomputable def acquire_atmospheric (cfg : AppConfig) (cache : AtmosphericCache)
    (env : AtmosEnv) (city_id : String) :
    Except String (AtmosphericData × AtmosphericCache) :=
  match retrieve_atmospheric cache city_id cfg.cache_ttl env.now with
  | some cached => .ok (cached, cache)
  | none =>
    match CITIES city_id with
    | none => .error "KeyError"
    | some config =>
      if cfg.openweather_api_key = "" ∨ py_strip cfg.openweather_api_key = "" then
        .ok (generate_fallback_data city_id config env cfg.units, cache)
      else
        match acquire_from_openweather config env.response env.now with
        | some weather_data => .ok (weather_data, store_atmospheric cache weather_data)
        | none =>
          let fb := generate_fallback_data city_id config env cfg.units
          .ok (fb, store_atmospheric cache fb)

/-- The spec's fallback temperature formula
`base_temperature + 8 sin((month-1)π/6) + 3 sin((hour-12)π/12)` (before
rounding), kept separate so the code's formula can be compared with it. -/
noncomputable def spec_celsius (city_id : String) (month hour : ℕ) : ℝ :=
  ((base_temps city_id : ℚ) : ℝ) + 8 * Real.sin (((month : ℝ) - 1) * Real.pi / 6)
    + 3 * Real.sin (((hour : ℝ) - 12) * Real.pi / 12)

/-- The imperial temperature exactly as claim C8 words it: the one-decimal
rounded Celsius value, times 9/5, plus 32, rounded again. -/
noncomputable def spec_imperial_temperature (city_id : String) (month hour : ℕ) : ℝ :=
  round1 (round1 (spec_celsius city_id month hour) * 9 / 5 + 32)

/-- The imperial wind speed exactly as claim C4 (and the spec) words it:
the whole metric base `3.5 + (month mod 3)` times `0.621371`, rounded to
one decimal. -/
noncomputable def spec_imperial_wind (month : ℕ) : ℝ :=
  round1 ((3.5 + ((month % 3 : ℕ) : ℝ)) * 0.621371)

/-- Well-formedness of the temporal table: every row sits under its own
city key (true of the empty table and preserved by `store_temporal`). -/
def temporal_cache_wf (cache : TemporalCache) : Prop :=
  ∀ k row, cache k = some row → row.city = k

/-- Freshly initialized `temporal_data` table. -/
def empty_temporal_cache : TemporalCache := fun _ => none

/-- Freshly initialized `atmospheric_data` table. -/
def empty_atmospheric_cache : AtmosphericCache := fun _ => none

/-- A configuration with an openweather credential present. -/
def cfg_with_key : AppConfig := ⟨"k", "", 600, "metric"⟩

/-- A configuration with no openweather credential. -/
def cfg_without_key : AppConfig := ⟨"", "", 600, "metric"⟩

/-- A successful openweather payload. -/
noncomputable def ny_api_response : WeatherResponse := ⟨20, "Clear Sky", 50, 4⟩

/-- Atmospheric environment with a responsive network stub. -/
noncomputable def env_network_ok : AtmosEnv := ⟨some ny_api_response, 3, 15, 0⟩

/-- Atmospheric environment with a failing network stub (March, 15h). -/
def env_no_network : AtmosEnv := ⟨none, 3, 15, 0⟩

/-- Same month and hour as `env_no_network`, different sub-hour clock. -/
def env_no_network_later : AtmosEnv := ⟨none, 3, 15, 5⟩

/-- Atmospheric environment in January (for the wind-conversion check). -/
def env_month1 : AtmosEnv := ⟨none, 1, 0, 0⟩

/-- Temporal environment with a failing time API stub. -/
def tenv_no_network : TimeEnv := ⟨none, "2024-01-01 09:00:00 JST+0900", 0⟩

/-- Temporal environment used when reading a primed cache at time 1. -/
def tenv_later : TimeEnv := ⟨none, "2024-01-01 09:00:01 JST+0900", 1⟩

/-- A concrete temporal record as the API tier would produce it. -/
def sample_temporal : TemporalData :=
  ⟨"london", "2024-01-01 00:00:00 GMT", 0, DataSource.api⟩

/-- Same content fields as `sample_temporal` under another key/provenance. -/
def sample_temporal_alt : TemporalData :=
  ⟨"tokyo", "2024-01-01 00:00:00 GMT", 0, DataSource.fallback⟩

/-- A concrete atmospheric record as the API tier would produce it. -/
noncomputable def sample_atmospheric : AtmosphericData :=
  ⟨"tokyo", 7, "Clear", 50, 2, 0, DataSource.api⟩

/-- The record the openweather tier produces for "newyork": its city field
is the display name "New York", not the requested id. -/
noncomputable def ny_api_record : AtmosphericData :=
  ⟨"New York", 20, "Clear Sky", 50, 4, 0, DataSource.api⟩

/-- A fresh atmospheric row sitting under the key "New York" (exactly what
`store_atmospheric` leaves behind after an API acquisition for "newyork"). -/
noncomputable def foreign_row : AtmosphericRow :=
  ⟨"New York", 18, "Cloudy", 60, 3, 0, DataSource.api, (18, "Cloudy", 0)⟩

/-- An atmospheric table holding only the "New York" row above. -/
noncomputable def cache_ny : AtmosphericCache :=
  fun k => if k = "New York" then some foreign_row else none

/-! ### Helper lemmas (shared) -/

theorem round1_eq_of_bounds (x : ℝ) (z : ℤ) (h1 : (z : ℝ) ≤ 10 * x + 1 / 2)
    (h2 : 10 * x + 1 / 2 < (z : ℝ) + 1) : round1 x = (z : ℝ) / 10 := by
  have hfloor : ⌊10 * x + 1 / 2⌋ = z := Int.floor_eq_iff.mpr ⟨h1, by linarith⟩
  unfold round1
  rw [round_eq, hfloor]

theorem sqrt3_gt : (1.7320508 : ℝ) < Real.sqrt 3 :=
  (Real.lt_sqrt (by norm_num)).mpr (by norm_num)

theorem sqrt3_lt : Real.sqrt 3 < 1.7320509 :=
  (Real.sqrt_lt' (by norm_num)).mpr (by norm_num)

theorem sqrt2_gt : (1.4142135 : ℝ) < Real.sqrt 2 :=
  (Real.lt_sqrt (by norm_num)).mpr (by norm_num)

theorem sqrt2_lt : Real.sqrt 2 < 1.4142136 :=
  (Real.sqrt_lt' (by norm_num)).mpr (by norm_num)

theorem store_temporal_apply_self (cache : TemporalCache) (d : TemporalData) :
    (store_temporal cache d) d.city
      = some ⟨d.city, d.time_str, d.timestamp, d.source,
          md5_model (d.time_str ++ toString d.timestamp)⟩ := by
  unfold store_temporal
  rw [if_pos rfl]

theorem retrieve_store_temporal (cache : TemporalCache) (d : TemporalData)
    (ttl now : ℚ) :
    retrieve_temporal (store_temporal cache d) d.city ttl now
      = if now - d.timestamp < ttl then some d else none := by
  unfold retrieve_temporal
  rw [store_temporal_apply_self]
  dsimp only
  by_cases h : now - d.timestamp < ttl
  · rw [if_pos h, if_pos (show d.timestamp > now - ttl by linarith)]
  · rw [if_neg h, if_neg (show ¬ d.timestamp > now - ttl by push_neg; linarith)]

theorem store_atmospheric_apply_self (cache : AtmosphericCache) (a : AtmosphericData) :
    (store_atmospheric cache a) a.city
      = some ⟨a.city, a.temperature, a.condition, a.humidity, a.wind_speed,
          a.timestamp, a.source, (a.temperature, a.condition, a.timestamp)⟩ := by
  unfold store_atmospheric
  rw [if_pos rfl]

theorem retrieve_store_atmospheric (cache : AtmosphericCache) (a : AtmosphericData)
    (ttl now : ℚ) :
    retrieve_atmospheric (store_atmospheric cache a) a.city ttl now
      = if now - a.timestamp < ttl then some a else none := by
  unfold retrieve_atmospheric
  rw [store_atmospheric_apply_self]
  dsimp only
  by_cases h : now - a.timestamp < ttl
  · rw [if_pos h, if_pos (show a.timestamp > now - ttl by linarith)]
  · rw [if_neg h, if_neg (show ¬ a.timestamp > now - ttl by push_neg; linarith)]

/-! ### C3 — cache freshness boundary -/

/-- C3: counterexample to the claim as stated.  The record is captured at
time 0; with TTL 10 and the read at time 10 the elapsed time `e` equals
the TTL `t`, so the claim requires the stored record to be returned — but
the code's freshness filter is strict (`timestamp > now - ttl`) and
returns nothing. -/
theorem C3_counterexample :
    (10 : ℚ) - sample_temporal.timestamp ≤ 10 ∧
    retrieve_temporal (store_temporal empty_temporal_cache sample_temporal)
      "london" 10 10 = none := by
  constructor
  · norm_num [sample_temporal]
  · have h := retrieve_store_temporal empty_temporal_cache sample_temporal 10 10
    rw [if_neg (by norm_num [sample_temporal])] at h
    exact h

/-- C3 (amended): `get` returns the stored record iff `e < t` (strictly);
for `e ≥ t` it returns nothing rather than an error, and the stale entry
is left in place — a read with a large enough TTL still returns it.  This
holds for both record kinds. -/
theorem C3_cache_freshness (cache : TemporalCache) (d : TemporalData)
    (acache : AtmosphericCache) (a : AtmosphericData) (ttl now : ℚ) :
    (retrieve_temporal (store_temporal cache d) d.city ttl now = some d
      ↔ now - d.timestamp < ttl) ∧
    retrieve_temporal (store_temporal cache d) d.city (now - d.timestamp + 1) now
      = some d ∧
    (retrieve_atmospheric (store_atmospheric acache a) a.city ttl now = some a
      ↔ now - a.timestamp < ttl) ∧
    retrieve_atmospheric (store_atmospheric acache a) a.city (now - a.timestamp + 1) now
      = some a := by
  refine ⟨?_, ?_, ?_, ?_⟩
  · rw [retrieve_store_temporal]
    constructor
    · intro h
      by_contra hc
      rw [if_neg hc] at h
      exact Option.noConfusion h
    · intro h
      rw [if_pos h]
  · rw [retrieve_store_temporal, if_pos (by linarith)]
  · rw [retrieve_store_atmospheric]
    constructor
    · intro h
      by_contra hc
      rw [if_neg hc] at h
      exact Option.noConfusion h
    · intro h
      rw [if_pos h]
  · rw [retrieve_store_atmospheric, if_pos (by linarith)]

/-! ### C9 — round trip and fingerprint purity -/

/-- C9: `put` followed by a `get` on the same key while fresh returns a
record equal to the original in every field; the stored row carries
exactly one extra datum, the fingerprint, and two records agreeing on the
fingerprinted content fields (`time_str`, `timestamp`) receive identical
fingerprints, so the fingerprint is a pure function of the record's
content fields. -/
theorem C9_round_trip (cache : TemporalCache) (d d2 : TemporalData) (ttl now : ℚ)
    (hfresh : now - d.timestamp < ttl)
    (hts : d2.time_str = d.time_str) (hstamp : d2.timestamp = d.timestamp) :
    retrieve_temporal (store_temporal cache d) d.city ttl now = some d ∧
    (store_temporal cache d) d.city
      = some ⟨d.city, d.time_str, d.timestamp, d.source,
          md5_model (d.time_str ++ toString d.timestamp)⟩ ∧
    ((store_temporal cache d) d.city).map TemporalRow.hash
      = ((store_temporal cache d2) d2.city).map TemporalRow.hash := by
  refine ⟨?_, store_temporal_apply_self cache d, ?_⟩
  · rw [retrieve_store_temporal, if_pos hfresh]
  · rw [store_temporal_apply_self, store_temporal_apply_self, hts, hstamp]
    exact rfl

/-- C9 witness at a concrete input: a record stored at time 0 and read at
time 1 with TTL 600 round-trips; a record with the same content fields
under another key and provenance gets the same fingerprint. -/
theorem C9_round_trip_witness :
    (1 : ℚ) - sample_temporal.timestamp < 600 ∧
    sample_temporal_alt.time_str = sample_temporal.time_str ∧
    sample_temporal_alt.timestamp = sample_temporal.timestamp ∧
    retrieve_temporal (store_temporal empty_temporal_cache sample_temporal)
      sample_temporal.city 600 1 = some sample_temporal :=
  ⟨by norm_num [sample_temporal], rfl, rfl,
    (C9_round_trip empty_temporal_cache sample_temporal sample_temporal_alt 600 1
      (by norm_num [sample_temporal]) rfl rfl).1⟩

/-! ### C6 — provenance preserved across cache hits -/

/-- C6: a record stored with any provenance (in particular `Api` or
`Fallback`) and then resolved again for the same key while fresh is
returned exactly as stored by both acquisition services — the cache-hit
path returns the retrieved record as-is, so provenance is never relabeled
to `Cache`. -/
theorem C6_provenance_preserved (cfg : AppConfig) (tcache : TemporalCache)
    (acache : AtmosphericCache) (tenv : TimeEnv) (aenv : AtmosEnv)
    (d : TemporalData) (a : AtmosphericData) (config : CityConfig)
    (hcity : CITIES d.city = some config)
    (hfresh : tenv.now - d.timestamp < cfg.cache_ttl)
    (hafresh : aenv.now - a.timestamp < cfg.cache_ttl) :
    acquire_temporal cfg (store_temporal tcache d) tenv d.city
      = .ok (d, store_temporal tcache d) ∧
    acquire_atmospheric cfg (store_atmospheric acache a) aenv a.city
      = .ok (a, store_atmospheric acache a) := by
  constructor
  · have h1 := retrieve_store_temporal tcache d cfg.cache_ttl tenv.now
    rw [if_pos hfresh] at h1
    unfold acquire_temporal
    rw [hcity, h1]
  · have h1 := retrieve_store_atmospheric acache a cfg.cache_ttl aenv.now
    rw [if_pos hafresh] at h1
    unfold acquire_atmospheric
    rw [h1]

/-- C6 witness: a temporal record for "london" and an atmospheric record
for "tokyo", both stored with provenance `Api` at time 0, are served
unchanged (provenance still `Api`) by resolutions at time 1 with TTL 600. -/
theorem C6_provenance_preserved_witness :
    CITIES sample_temporal.city = some london_config ∧
    tenv_later.now - sample_temporal.timestamp < cfg_with_key.cache_ttl ∧
    env_no_network_later.now - sample_atmospheric.timestamp < cfg_with_key.cache_ttl ∧
    acquire_temporal cfg_with_key (store_temporal empty_temporal_cache sample_temporal)
        tenv_later sample_temporal.city
      = .ok (sample_temporal, store_temporal empty_temporal_cache sample_temporal) ∧
    sample_temporal.source = DataSource.api :=
  ⟨rfl, by norm_num [sample_temporal, tenv_later, cfg_with_key],
    by norm_num [sample_atmospheric, env_no_network_later, cfg_with_key],
    (C6_provenance_preserved cfg_with_key empty_temporal_cache
        empty_atmospheric_cache tenv_later env_no_network_later sample_temporal
        sample_atmospheric london_config rfl
        (by norm_num [sample_temporal, tenv_later, cfg_with_key])
        (by norm_num [sample_atmospheric, env_no_network_later, cfg_with_key])).1,
    rfl⟩

/-! ### C10 — the returned temporal record carries the requested city id -/

theorem store_temporal_wf (cache : TemporalCache) (d : TemporalData)
    (h : temporal_cache_wf cache) : temporal_cache_wf (store_temporal cache d) := by
  intro k row hk
  unfold store_temporal at hk
  by_cases hc : k = d.city
  · rw [if_pos hc] at hk
    cases hk
    exact hc.symm
  · rw [if_neg hc] at hk
    exact h k row hk

/-- C10: for a registry city and a well-keyed cache (every row sits under
its own city key, which `store_temporal` maintains), the record returned
by `acquire_temporal` carries the requested `city_id` on all three tiers;
on the fallback tier this is exactly the overwrite of the timezone-derived
identifier with `city_id` before storing and returning. -/
theorem C10_requested_city_id (cfg : AppConfig) (cache : TemporalCache)
    (env : TimeEnv) (city_id : String) (config : CityConfig)
    (hwf : temporal_cache_wf cache) (hcity : CITIES city_id = some config) :
    ∀ d cache2, acquire_temporal cfg cache env city_id = .ok (d, cache2) →
      d.city = city_id := by
  intro d cache2 h
  unfold acquire_temporal at h
  rw [hcity] at h
  cases hr : retrieve_temporal cache city_id cfg.cache_ttl env.now with
  | some cached =>
      rw [hr] at h
      simp only [Except.ok.injEq, Prod.mk.injEq] at h
      obtain ⟨h1, -⟩ := h
      subst h1
      unfold retrieve_temporal at hr
      cases hrow : cache city_id with
      | none =>
          rw [hrow] at hr
          exact absurd hr (by simp)
      | some row =>
          rw [hrow] at hr
          dsimp only at hr
          by_cases hf : row.timestamp > env.now - cfg.cache_ttl
          · rw [if_pos hf] at hr
            cases hr
            exact hwf _ _ hrow
          · rw [if_neg hf] at hr
            exact absurd hr (by simp)
  | none =>
      rw [hr] at h
      cases he : env.response with
      | some s =>
          simp only [acquire_from_worldtimeapi, he, Option.map_some', Except.ok.injEq,
            Prod.mk.injEq] at h
          obtain ⟨h1, -⟩ := h
          subst h1
          rfl
      | none =>
          simp only [acquire_from_worldtimeapi, he, Option.map_none', Except.ok.injEq,
            Prod.mk.injEq] at h
          obtain ⟨h1, -⟩ := h
          subst h1
          rfl

/-- C10 witness: with an empty (hence well-keyed) cache and a failing time
API, the fallback tier answers for "tokyo" and the returned record's city
field is "tokyo" (the timezone-derived "tokyo" from "Asia/Tokyo" was
overwritten with the requested id). -/
theorem C10_requested_city_id_witness :
    temporal_cache_wf empty_temporal_cache ∧
    CITIES "tokyo" = some tokyo_config ∧
    (⟨"tokyo", "2024-01-01 09:00:00 JST+0900", 0, DataSource.fallback⟩
        : TemporalData).city = "tokyo" := by
  refine ⟨?_, rfl, ?_⟩
  · intro k row h
    exact nomatch h
  exact C10_requested_city_id cfg_with_key empty_temporal_cache tenv_no_network
    "tokyo" tokyo_config (fun _ _ h => nomatch h) rfl
    ⟨"tokyo", "2024-01-01 09:00:00 JST+0900", 0, DataSource.fallback⟩
    (store_temporal empty_temporal_cache
      ⟨"tokyo", "2024-01-01 09:00:00 JST+0900", 0, DataSource.fallback⟩)
    rfl

/-! ### C5 — where unknown identifiers are rejected -/

/-- C5: counterexample to the claim as stated.  "New York" is not a registry
identifier, yet `acquire_atmospheric` consults the cache before the
registry lookup: with a fresh row sitting under that key it returns a
record instead of failing, so unknown identifiers are not rejected before
cache I/O on the atmospheric path. -/
theorem cache_hit_returns (cfg : AppConfig) (cache : AtmosphericCache)
    (env : AtmosEnv) (city_id : String) (c : AtmosphericData)
    (hhit : retrieve_atmospheric cache city_id cfg.cache_ttl env.now = some c) :
    acquire_atmospheric cfg cache env city_id = .ok (c, cache) := by
  unfold acquire_atmospheric
  rw [hhit]

theorem C5_counterexample :
    CITIES "New York" = none ∧
    acquire_atmospheric cfg_with_key cache_ny env_no_network "New York"
      = .ok (⟨"New York", 18, "Cloudy", 60, 3, 0, DataSource.api⟩, cache_ny) := by
  constructor
  · rfl
  · refine cache_hit_returns _ _ _ _ _ ?_
    unfold retrieve_atmospheric cache_ny foreign_row
    rw [if_pos rfl]
    dsimp only
    rw [if_pos (show (0 : ℚ) > env_no_network.now - cfg_with_key.cache_ttl by
      norm_num [env_no_network, cfg_with_key])]

/-- C5 (amended): `acquire_temporal` looks the identifier up in the registry
first and fails on an unknown one regardless of the cache contents —
before any cache or network I/O can influence the outcome; but
`acquire_atmospheric` consults the cache first: on an unknown identifier
it fails only after a cache miss, and a fresh cached entry under that key
is returned without any registry validation. -/
theorem C5_unknown_identifier (cfg : AppConfig) (tcache : TemporalCache)
    (acache : AtmosphericCache) (tenv : TimeEnv) (aenv : AtmosEnv)
    (city_id : String) (h : CITIES city_id = none) :
    acquire_temporal cfg tcache tenv city_id = .error "KeyError" ∧
    (retrieve_atmospheric acache city_id cfg.cache_ttl aenv.now = none →
      acquire_atmospheric cfg acache aenv city_id = .error "KeyError") ∧
    (∀ c, retrieve_atmospheric acache city_id cfg.cache_ttl aenv.now = some c →
      acquire_atmospheric cfg acache aenv city_id = .ok (c, acache)) := by
  refine ⟨?_, ?_, ?_⟩
  · unfold acquire_temporal
    rw [h]
  · intro hmiss
    unfold acquire_atmospheric
    rw [hmiss, h]
  · intro c hhit
    unfold acquire_atmospheric
    rw [hhit]

/-- C5 witness: "paris" is unknown; with empty caches the temporal service
fails before any I/O and the atmospheric service fails after its cache
miss. -/
theorem C5_unknown_identifier_witness :
    CITIES "paris" = none ∧
    acquire_temporal cfg_with_key empty_temporal_cache tenv_no_network "paris"
      = .error "KeyError" :=
  ⟨rfl,
    (C5_unknown_identifier cfg_with_key empty_temporal_cache
      empty_atmospheric_cache tenv_no_network env_no_network "paris" rfl).1⟩

/-! ### C2 — the missing-credential path does not store -/

/-- C2: counterexample to the claim as stated.  With no openweather
credential configured and an empty cache, `acquire_atmospheric` for
"london" returns the synthesized record tagged `Fallback` but hands back
the cache unchanged: nothing is stored under "London" or "london", unlike
the API-failure path. -/
theorem C2_counterexample :
    acquire_atmospheric cfg_without_key empty_atmospheric_cache env_no_network "london"
      = .ok (generate_fallback_data "london" london_config env_no_network "metric",
          empty_atmospheric_cache) ∧
    (generate_fallback_data "london" london_config env_no_network "metric").source
      = DataSource.fallback ∧
    empty_atmospheric_cache "London" = none ∧
    empty_atmospheric_cache "london" = none := by
  refine ⟨rfl, rfl, rfl, rfl⟩

/-- C2 (amended): on a cache miss with a missing credential the service runs
the fallback synthesizer, tags the record `Fallback` and returns it, but —
unlike the API-failure path, which stores the synthesized record — it does
NOT store it: the cache comes back unchanged. -/
theorem C2_missing_credential (cfg : AppConfig) (cache : AtmosphericCache)
    (env : AtmosEnv) (city_id : String) (config : CityConfig)
    (hmiss : retrieve_atmospheric cache city_id cfg.cache_ttl env.now = none)
    (hcity : CITIES city_id = some config)
    (hkey : py_strip cfg.openweather_api_key = "") :
    acquire_atmospheric cfg cache env city_id
      = .ok (generate_fallback_data city_id config env cfg.units, cache) ∧
    (generate_fallback_data city_id config env cfg.units).source
      = DataSource.fallback ∧
    (env.response = none →
      acquire_atmospheric { cfg with openweather_api_key := "credential" } cache env city_id
        = .ok (generate_fallback_data city_id config env cfg.units,
            store_atmospheric cache
              (generate_fallback_data city_id config env cfg.units))) := by
  refine ⟨?_, rfl, ?_⟩
  · unfold acquire_atmospheric
    rw [hmiss, hcity]
    dsimp only
    rw [if_pos (Or.inr hkey)]
  · intro he
    unfold acquire_atmospheric
    rw [hmiss, hcity]
    dsimp only
    rw [if_neg (by decide)]
    simp only [acquire_from_openweather, he, Option.map_none']

/-- C2 (amended) witness: concrete run for "london" with an empty cache and
an empty credential — the fallback record is returned with the cache
unchanged. -/
theorem C2_missing_credential_witness :
    retrieve_atmospheric empty_atmospheric_cache "london" cfg_without_key.cache_ttl
        env_no_network.now = none ∧
    CITIES "london" = some london_config ∧
    py_strip cfg_without_key.openweather_api_key = "" ∧
    acquire_atmospheric cfg_without_key empty_atmospheric_cache env_no_network "london"
      = .ok (generate_fallback_data "london" london_config env_no_network
          cfg_without_key.units, empty_atmospheric_cache) :=
  ⟨rfl, rfl, rfl,
    (C2_missing_credential cfg_without_key empty_atmospheric_cache env_no_network
      "london" london_config rfl rfl rfl).1⟩

/-! ### C1 — write-back is keyed by display name, not the requested id -/

/-- C1: the code bug exhibited.  Starting from an empty cache with a
responsive network stub, resolving "newyork" succeeds, stores the record
before returning it — but under the record's city field "New York" (the
registry display name), not under the requested id.  A second lookup for
"newyork" at the same instant therefore misses (so a second resolution
re-attempts the network), while the row is retrievable under "New York". -/
theorem C1_cache_key_mismatch :
    acquire_atmospheric cfg_with_key empty_atmospheric_cache env_network_ok "newyork"
      = .ok (ny_api_record, store_atmospheric empty_atmospheric_cache ny_api_record) ∧
    ny_api_record.city = "New York" ∧
    retrieve_atmospheric (store_atmospheric empty_atmospheric_cache ny_api_record)
      "newyork" 600 0 = none ∧
    retrieve_atmospheric (store_atmospheric empty_atmospheric_cache ny_api_record)
      "New York" 600 0 = some ny_api_record := by
  refine ⟨rfl, rfl, rfl, ?_⟩
  have h := retrieve_store_atmospheric empty_atmospheric_cache ny_api_record 600 0
  rw [if_pos (by norm_num [ny_api_record])] at h
  exact h

/-! ### C7 — fallback synthesis is deterministic -/

/-- C7: the fallback synthesizer is a pure function of
`(location_id, month, hour, unit_system)`: two invocations whose clock
readings agree on month and hour — regardless of the rest of the clock
state (`time.time()`, sub-second state) or of the network stub — produce
identical temperature, condition, humidity and wind speed. -/
theorem C7_fallback_deterministic (city_id : String) (config : CityConfig)
    (e1 e2 : AtmosEnv) (units : String)
    (hm : e1.month = e2.month) (hh : e1.hour = e2.hour) :
    (generate_fallback_data city_id config e1 units).temperature
      = (generate_fallback_data city_id config e2 units).temperature ∧
    (generate_fallback_data city_id config e1 units).condition
      = (generate_fallback_data city_id config e2 units).condition ∧
    (generate_fallback_data city_id config e1 units).humidity
      = (generate_fallback_data city_id config e2 units).humidity ∧
    (generate_fallback_data city_id config e1 units).wind_speed
      = (generate_fallback_data city_id config e2 units).wind_speed := by
  obtain ⟨r1, m1, h1, n1⟩ := e1
  obtain ⟨r2, m2, h2, n2⟩ := e2
  dsimp only at hm hh
  subst hm
  subst hh
  exact ⟨rfl, rfl, rfl, rfl⟩

/-- C7 witness: two environments reading March, 15h, with different
`time.time()` values (0 and 5 seconds), yield identical synthesized
weather fields for "london". -/
theorem C7_fallback_deterministic_witness :
    env_no_network.month = env_no_network_later.month ∧
    env_no_network.hour = env_no_network_later.hour ∧
    ((generate_fallback_data "london" london_config env_no_network "metric").temperature
        = (generate_fallback_data "london" london_config env_no_network_later
            "metric").temperature ∧
      (generate_fallback_data "london" london_config env_no_network "metric").condition
        = (generate_fallback_data "london" london_config env_no_network_later
            "metric").condition ∧
      (generate_fallback_data "london" london_config env_no_network "metric").humidity
        = (generate_fallback_data "london" london_config env_no_network_later
            "metric").humidity ∧
      (generate_fallback_data "london" london_config env_no_network "metric").wind_speed
        = (generate_fallback_data "london" london_config env_no_network_later
            "metric").wind_speed) :=
  ⟨rfl, rfl,
    C7_fallback_deterministic "london" london_config env_no_network
      env_no_network_later "metric" rfl rfl⟩

/-! ### C4 — imperial wind speed converts only part of the base -/

/-- C4: the code bug exhibited at month = 1 (January, imperial units).  The
spec's formula converts the whole metric base:
`round((3.5 + 1) * 0.621371, 1) = 2.8`; the code computes
`3.5 + (month % 3) * 0.621371` (the comment says "Convert to mph" but the
3.5 base is left unconverted) and reports `4.1`. -/
theorem C4_wind_conversion :
    (generate_fallback_data "london" london_config env_month1 "imperial").wind_speed
      = 41 / 10 ∧
    spec_imperial_wind 1 = 28 / 10 ∧
    (41 / 10 : ℝ) ≠ 28 / 10 := by
  refine ⟨?_, ?_, by norm_num⟩
  · have h : (generate_fallback_data "london" london_config env_month1
          "imperial").wind_speed
        = round1 (3.5 + ((1 % 3 : ℕ) : ℝ) * 0.621371) := rfl
    rw [h, round1_eq_of_bounds (3.5 + ((1 % 3 : ℕ) : ℝ) * 0.621371) 41
      (by norm_num) (by norm_num)]
    norm_num
  · unfold spec_imperial_wind
    rw [round1_eq_of_bounds ((3.5 + ((1 % 3 : ℕ) : ℝ)) * 0.621371) 28
      (by norm_num) (by norm_num)]
    norm_num

/-! ### C8 — fallback temperature and the order of rounding/conversion -/

/-- C8: counterexample to the claim as stated, at "london", March (month 3),
15h.  The exact Celsius value is `10 + 4√3 + 1.5√2 ≈ 19.0495`; the code
converts the unrounded Celsius and rounds once, giving `66.3 °F`, while
the claim's formula (round to one decimal, then convert, then round again)
gives `round(19.0 * 9/5 + 32, 1) = 66.2`. -/
theorem C8_counterexample :
    (generate_fallback_data "london" london_config env_no_network
        "imperial").temperature
      ≠ spec_imperial_temperature "london" 3 15 := by
  have hm : (((3 : ℕ) : ℝ) - 1) * Real.pi / 6 = Real.pi / 3 := by push_cast; ring
  have hh : (((15 : ℕ) : ℝ) - 12) * Real.pi / 12 = Real.pi / 4 := by push_cast; ring
  have hcode : (generate_fallback_data "london" london_config env_no_network
        "imperial").temperature
      = round1 ((((10 : ℚ) : ℝ) + Real.sin ((((3 : ℕ) : ℝ) - 1) * Real.pi / 6) * 8
          + Real.sin ((((15 : ℕ) : ℝ) - 12) * Real.pi / 12) * 3) * 9 / 5 + 32) := rfl
  have hspec : spec_celsius "london" 3 15
      = ((10 : ℚ) : ℝ) + 8 * (Real.sqrt 3 / 2) + 3 * (Real.sqrt 2 / 2) := by
    unfold spec_celsius
    rw [hm, hh, Real.sin_pi_div_three, Real.sin_pi_div_four]
    exact rfl
  have hcodeval : round1 ((((10 : ℚ) : ℝ) + Real.sqrt 3 / 2 * 8
        + Real.sqrt 2 / 2 * 3) * 9 / 5 + 32) = ((663 : ℤ) : ℝ) / 10 :=
    round1_eq_of_bounds _ 663
      (by push_cast; linarith [sqrt3_gt, sqrt2_gt])
      (by push_cast; linarith [sqrt3_lt, sqrt2_lt])
  have hcelsius : round1 (((10 : ℚ) : ℝ) + 8 * (Real.sqrt 3 / 2)
        + 3 * (Real.sqrt 2 / 2)) = ((190 : ℤ) : ℝ) / 10 :=
    round1_eq_of_bounds _ 190
      (by push_cast; linarith [sqrt3_gt, sqrt2_gt])
      (by push_cast; linarith [sqrt3_lt, sqrt2_lt])
  have hspecval : spec_imperial_temperature "london" 3 15 = ((662 : ℤ) : ℝ) / 10 := by
    unfold spec_imperial_temperature
    rw [hspec, hcelsius,
      show ((190 : ℤ) : ℝ) / 10 * 9 / 5 + 32 = 66.2 by norm_num,
      round1_eq_of_bounds 66.2 662 (by norm_num) (by norm_num)]
  rw [hcode, hm, hh, Real.sin_pi_div_three, Real.sin_pi_div_four, hcodeval, hspecval]
  norm_num

/-- C8 (amended): the synthesized Celsius temperature is exactly the spec's
`base + 8 sin((month-1)π/6) + 3 sin((hour-12)π/12)` rounded to one decimal
in metric mode; in imperial mode the code converts the UNROUNDED Celsius
value (`celsius * 9/5 + 32`) and rounds once at the end — not the
one-decimal-rounded Celsius value. -/
theorem C8_temperature_formula (city_id : String) (config : CityConfig)
    (env : AtmosEnv) :
    (generate_fallback_data city_id config env "metric").temperature
      = round1 (spec_celsius city_id env.month env.hour) ∧
    (generate_fallback_data city_id config env "imperial").temperature
      = round1 (spec_celsius city_id env.month env.hour * 9 / 5 + 32) := by
  constructor
  · show round1 (((base_temps city_id : ℚ) : ℝ)
        + Real.sin (((env.month : ℝ) - 1) * Real.pi / 6) * 8
        + Real.sin (((env.hour : ℝ) - 12) * Real.pi / 12) * 3) = _
    unfold spec_celsius
    congr 1
    ring
  · show round1 ((((base_temps city_id : ℚ) : ℝ)
        + Real.sin (((env.month : ℝ) - 1) * Real.pi / 6) * 8
        + Real.sin (((env.hour : ℝ) - 12) * Real.pi / 12) * 3) * 9 / 5 + 32) = _
    unfold spec_celsius
    congr 1
    ring
